import Mathlib

/-!
Shallow embedding of `Source/SceneManager.cpp` (class `SceneManager`) from the
CS330 tabletop-scene repository, together with proofs of the specification
claims about it.

Modelling conventions:
* GLM float scalars are embedded as real numbers (`ℝ`); `glm::vec3` /
  `glm::vec4` become record types over `ℝ`; `glm::mat4` becomes
  `Matrix (Fin 4) (Fin 4) ℝ` with ordinary matrix multiplication.
* The shader manager (`m_pShaderManager`) is observable only through the
  uniform values pushed into it, so each member function is embedded as a
  function returning the list of uniform pushes it performs.  The C++
  `NULL` test on the pointer is embedded as a `Bool` argument `hasShader`;
  a member-function call through a null pointer (which the source performs
  in `SetShaderMaterial`) is undefined behaviour and is embedded as `none`.
* The fixed C array `TEXTURE_INFO m_textureIDs[16]` together with the
  counter `m_loadedTextures` is embedded as the list of its first
  `m_loadedTextures` entries (the only entries any loop of the class ever
  reads); the capacity 16 reappears in `createGLTexture`, where the raw
  array store `m_textureIDs[m_loadedTextures] = ...` is in bounds exactly
  when fewer than 16 textures are loaded, and is undefined behaviour
  (embedded as `none`) otherwise.
* `stbi_load` and `glGenTextures` are external inputs: the decoded image
  (or failure) and the generated texture name are passed as arguments.
-/

/-- `glm::vec3`: three float components. -/
structure Vec3 where
  x : ℝ
  y : ℝ
  z : ℝ

/-- `glm::vec4` as used for shader colors (r,g,b,a). -/
structure Vec4 where
  r : ℝ
  g : ℝ
  b : ℝ
  a : ℝ

/-- `glm::vec3 * float`: componentwise scaling, as used for the flicker
multiplier in `RenderScene`. -/
noncomputable def Vec3.smulR (v : Vec3) (k : ℝ) : Vec3 :=
  ⟨v.x * k, v.y * k, v.z * k⟩

/-- `glm::mat4` embedded as a real 4×4 matrix. -/
abbrev Mat4 := Matrix (Fin 4) (Fin 4) ℝ

/-- `glm::radians`: degrees-to-radians conversion. -/
noncomputable def glmRadians (degrees : ℝ) : ℝ := degrees * (Real.pi / 180)

/-- `glm::scale(v)`: diagonal scaling matrix. -/
noncomputable def glmScale (v : Vec3) : Mat4 :=
  !![v.x, 0, 0, 0;
     0, v.y, 0, 0;
     0, 0, v.z, 0;
     0, 0, 0, 1]

/-- `glm::rotate(angle, vec3(1,0,0))`: rotation about the x axis. -/
noncomputable def glmRotateX (angle : ℝ) : Mat4 :=
  !![1, 0, 0, 0;
     0, Real.cos angle, -Real.sin angle, 0;
     0, Real.sin angle, Real.cos angle, 0;
     0, 0, 0, 1]

/-- `glm::rotate(angle, vec3(0,1,0))`: rotation about the y axis. -/
noncomputable def glmRotateY (angle : ℝ) : Mat4 :=
  !![Real.cos angle, 0, Real.sin angle, 0;
     0, 1, 0, 0;
     -Real.sin angle, 0, Real.cos angle, 0;
     0, 0, 0, 1]

/-- `glm::rotate(angle, vec3(0,0,1))`: rotation about the z axis. -/
noncomputable def glmRotateZ (angle : ℝ) : Mat4 :=
  !![Real.cos angle, -Real.sin angle, 0, 0;
     Real.sin angle, Real.cos angle, 0, 0;
     0, 0, 1, 0;
     0, 0, 0, 1]

/-- `glm::translate(p)`: translation matrix. -/
noncomputable def glmTranslate (p : Vec3) : Mat4 :=
  !![1, 0, 0, p.x;
     0, 1, 0, p.y;
     0, 0, 1, p.z;
     0, 0, 0, 1]

/-- One entry of the texture registry: `struct TEXTURE_INFO { std::string tag;
GLuint ID; }` (the ID is stored/compared through C++ `int` in the lookup
functions, so it is embedded as `Int`). -/
structure TEXTURE_INFO where
  tag : String
  ID : Int
deriving DecidableEq

/-- One entry of the material registry: `struct OBJECT_MATERIAL` with a
diffuse color, a specular color, a shininess value and a tag. -/
structure OBJECT_MATERIAL where
  diffuseColor : Vec3
  specularColor : Vec3
  shininess : ℝ
  tag : String

/-- The mutable state of a `SceneManager` that the registry operations read
and write: the first `m_loadedTextures` entries of `m_textureIDs[16]` (in
registration order) and the vector `m_objectMaterials`. -/
structure SMState where
  textureIDs : List TEXTURE_INFO
  objectMaterials : List OBJECT_MATERIAL

/-- The state after `SceneManager::SceneManager`: the constructor sets
`m_loadedTextures = 0` (the 16 placeholder array entries are never read
while `m_loadedTextures = 0`), and `m_objectMaterials` starts empty. -/
def initialState : SMState := ⟨[], []⟩

/-- Result of `stbi_load`: width, height and channel count of the decoded
image (the pixel buffer itself is never inspected by `SceneManager`). -/
structure ImageData where
  width : Int
  height : Int
  colorChannels : Int
deriving DecidableEq

/-- `SceneManager::CreateGLTexture`.  `img` is the result of `stbi_load`
(`none` = decode failure); `newID` is the texture name produced by
`glGenTextures`.  Returns the C++ return value paired with the state after
the call, or `none` when the call runs into undefined behaviour (the store
`m_textureIDs[m_loadedTextures]` with 16 textures already loaded writes
outside the 16-entry array). -/
def createGLTexture (st : SMState) (img : Option ImageData) (tag : String)
    (newID : Int) : Option (Bool × SMState) :=
  match img with
  | some image =>
      if image.colorChannels = 3 ∨ image.colorChannels = 4 then
        if st.textureIDs.length < 16 then
          some (true, { st with textureIDs := st.textureIDs ++ [⟨tag, newID⟩] })
        else
          none
      else
        some (false, st)
  | none => some (false, st)

/-- A sequence of `CreateGLTexture` calls (as in `LoadSceneTextures`, which
discards each call's boolean result): the decoded image, the tag and the
generated texture name of each call. -/
structure RegInput where
  img : ImageData
  tag : String
  newID : Int
deriving DecidableEq

/-- Run a sequence of `CreateGLTexture` calls, threading the state and
discarding the boolean results exactly as `LoadSceneTextures` does. -/
def registerSeq : List RegInput → SMState → Option SMState
  | [], st => some st
  | r :: rest, st =>
      match createGLTexture st (some r.img) r.tag r.newID with
      | some (_, st2) => registerSeq rest st2
      | none => none

/-- The loop body of `SceneManager::BindGLTextures`: iteration `i` issues
`glActiveTexture(GL_TEXTURE0 + i); glBindTexture(GL_TEXTURE_2D,
m_textureIDs[i].ID)`, recorded as the pair (texture unit, texture ID). -/
def bindGo : List TEXTURE_INFO → Nat → List (Nat × Int)
  | [], _ => []
  | e :: rest, i => (i, e.ID) :: bindGo rest (i + 1)

/-- `SceneManager::BindGLTextures`: the list of (texture unit, texture ID)
bindings it issues, one per loaded texture, in loop order. -/
def bindGLTextures (st : SMState) : List (Nat × Int) :=
  bindGo st.textureIDs 0

/-- A raw OpenGL texture-object call issued by `DestroyGLTextures` (or that
it could have issued): `glGenTextures` producing a name, or
`glDeleteTextures` releasing one. -/
inductive GLCall where
  | genTextures (id : Int)
  | deleteTextures (id : Int)
deriving DecidableEq

/-- Whether a GL call is a `glDeleteTextures` call. -/
def GLCall.isDelete : GLCall → Bool
  | .deleteTextures _ => true
  | _ => false

/-- The loop of `SceneManager::DestroyGLTextures`: iteration `i` executes
`glGenTextures(1, &m_textureIDs[i].ID)`, overwriting the stored handle with
a freshly generated name `fresh i`.  Returns the updated entries and the GL
calls issued. -/
def destroyGo (fresh : Nat → Int) :
    List TEXTURE_INFO → Nat → List TEXTURE_INFO × List GLCall
  | [], _ => ([], [])
  | e :: rest, i =>
      let r := destroyGo fresh rest (i + 1)
      (⟨e.tag, fresh i⟩ :: r.1, GLCall.genTextures (fresh i) :: r.2)

/-- `SceneManager::DestroyGLTextures`: the state after the call and the GL
calls issued, with `fresh i` the texture name `glGenTextures` produces at
iteration `i`. -/
def destroyGLTextures (st : SMState) (fresh : Nat → Int) :
    SMState × List GLCall :=
  let r := destroyGo fresh st.textureIDs 0
  ({ st with textureIDs := r.1 }, r.2)

/-- The `while` loop of `SceneManager::FindTextureID`: first entry whose tag
compares equal yields its ID, otherwise the initial value `-1` survives. -/
def findIDGo (tag : String) : List TEXTURE_INFO → Int
  | [] => -1
  | e :: rest => if e.tag = tag then e.ID else findIDGo tag rest

/-- `SceneManager::FindTextureID`. -/
def findTextureID (st : SMState) (tag : String) : Int :=
  findIDGo tag st.textureIDs

/-- The `while` loop of `SceneManager::FindTextureSlot`, carrying the
running `index`: first entry whose tag compares equal yields its index,
otherwise the initial value `-1` survives. -/
def findSlotGo (tag : String) : List TEXTURE_INFO → Nat → Int
  | [], _ => -1
  | e :: rest, i => if e.tag = tag then (i : Int) else findSlotGo tag rest (i + 1)

/-- `SceneManager::FindTextureSlot`. -/
def findTextureSlot (st : SMState) (tag : String) : Int :=
  findSlotGo tag st.textureIDs 0

/-- The `while` loop of `SceneManager::FindMaterial`: the first entry whose
tag compares equal, if any. -/
def findMaterialScan (tag : String) : List OBJECT_MATERIAL → Option OBJECT_MATERIAL
  | [] => none
  | m :: rest => if m.tag = tag then some m else findMaterialScan tag rest

/-- `SceneManager::FindMaterial`.  `material` is the caller's output
parameter; the result pairs the C++ return value with the final contents of
that parameter.  On a match only the diffuse color, specular color and
shininess fields are copied into it; note the function returns `true`
whenever `m_objectMaterials` is non-empty, matched or not. -/
def findMaterial (st : SMState) (tag : String) (material : OBJECT_MATERIAL) :
    Bool × OBJECT_MATERIAL :=
  if st.objectMaterials.length = 0 then
    (false, material)
  else
    match findMaterialScan tag st.objectMaterials with
    | some m =>
        (true, { material with
                   diffuseColor := m.diffuseColor
                   specularColor := m.specularColor
                   shininess := m.shininess })
    | none => (true, material)

/-- One uniform push into the shader manager, tagged by the `ShaderManager`
setter used and the uniform name. -/
inductive UPush where
  | mat4V (name : String) (value : Mat4)
  | intV (name : String) (value : Int)
  | vec4V (name : String) (value : Vec4)
  | vec3V (name : String) (value : Vec3)
  | vec2V (name : String) (u v : ℝ)
  | floatV (name : String) (value : ℝ)
  | sampler2DV (name : String) (value : Int)
  | boolV (name : String) (value : Bool)

/-- `SceneManager::SetTransformations`: builds the model matrix
`translation * rotationZ * rotationY * rotationX * scale` (each rotation
angle first converted from degrees to radians) and pushes it as the
`"model"` mat4 uniform when the shader pointer is non-null. -/
noncomputable def setTransformations (hasShader : Bool) (scaleXYZ : Vec3)
    (XrotationDegrees YrotationDegrees ZrotationDegrees : ℝ)
    (positionXYZ : Vec3) : List UPush :=
  let scale := glmScale scaleXYZ
  let rotationX := glmRotateX (glmRadians XrotationDegrees)
  let rotationY := glmRotateY (glmRadians YrotationDegrees)
  let rotationZ := glmRotateZ (glmRadians ZrotationDegrees)
  let translation := glmTranslate positionXYZ
  let modelView := translation * rotationZ * rotationY * rotationX * scale
  if hasShader then [.mat4V "model" modelView] else []

/-- `SceneManager::SetShaderColor`: when the shader pointer is non-null,
pushes `bUseTexture := false` (through the int setter) and the color. -/
def setShaderColor (hasShader : Bool)
    (redColorValue greenColorValue blueColorValue alphaValue : ℝ) :
    List UPush :=
  let currentColor : Vec4 :=
    ⟨redColorValue, greenColorValue, blueColorValue, alphaValue⟩
  if hasShader then
    [.intV "bUseTexture" 0, .vec4V "objectColor" currentColor]
  else []

/-- `SceneManager::SetShaderTexture`: when the shader pointer is non-null,
pushes `bUseTexture := true` and the slot index found for the tag. -/
def setShaderTexture (st : SMState) (hasShader : Bool) (textureTag : String) :
    List UPush :=
  if hasShader then
    [.intV "bUseTexture" 1,
     .sampler2DV "objectTexture" (findTextureSlot st textureTag)]
  else []

/-- `SceneManager::SetTextureUVScale`: when the shader pointer is non-null,
pushes the `"UVscale"` vec2 uniform. -/
def setTextureUVScale (hasShader : Bool) (u v : ℝ) : List UPush :=
  if hasShader then [.vec2V "UVscale" u v] else []

/-- `SceneManager::SetShaderMaterial`.  `junk` models the value of the
uninitialized local `OBJECT_MATERIAL material;`.  The function tests the
material list and `FindMaterial`'s result but never the shader pointer, so
when the pushes are reached with a null shader pointer the calls through
the pointer are undefined behaviour, embedded as `none`. -/
def setShaderMaterial (st : SMState) (hasShader : Bool)
    (junk : OBJECT_MATERIAL) (materialTag : String) : Option (List UPush) :=
  if 0 < st.objectMaterials.length then
    let r := findMaterial st materialTag junk
    if r.1 then
      if hasShader then
        some [.vec3V "material.diffuseColor" r.2.diffuseColor,
              .vec3V "material.specularColor" r.2.specularColor,
              .floatV "material.shininess" r.2.shininess]
      else
        none
    else
      some []
  else
    some []

/-- The flicker multiplier computed in `SceneManager::RenderScene`:
`0.9f + 0.1f * sin(time * 15.0f)`. -/
noncomputable def flicker (time : ℝ) : ℝ := 0.9 + 0.1 * Real.sin (time * 15.0)

/-- The per-object render routines invoked by `RenderScene`, one constructor
per routine, in the order they appear in the source text. -/
inductive Routine where
  | floor | backWall | rightWall | table | clock | wineBottle | candle
  | leftChair | rightChair | leftWineGlass | rightWineGlass
  | leftPlate | rightPlate | leftFork | rightFork
deriving DecidableEq

/-- An observable step of `RenderScene`: a uniform push or the invocation of
one of the per-object render routines. -/
inductive REvent where
  | push (u : UPush)
  | call (r : Routine)

/-- Whether a `RenderScene` event is a routine invocation. -/
def REvent.isCall : REvent → Bool
  | .call _ => true
  | _ => false

/-- `SceneManager::RenderScene` at elapsed time `t` (the value returned by
`glfwGetTime()`): computes the flicker multiplier, scales the spotlight
diffuse/ambient base colors by it, pushes both uniforms, then invokes the
fifteen per-object render routines in source order. -/
noncomputable def renderScene (t : ℝ) : List REvent :=
  let flickerDiffuse := Vec3.smulR ⟨0.9, 0.55, 0.2⟩ (flicker t)
  let flickerAmbient := Vec3.smulR ⟨0.08, 0.05, 0.02⟩ (flicker t)
  [.push (.vec3V "spotLight.diffuse" flickerDiffuse),
   .push (.vec3V "spotLight.ambient" flickerAmbient),
   .call .floor, .call .backWall, .call .rightWall, .call .table,
   .call .clock, .call .wineBottle, .call .candle, .call .leftChair,
   .call .rightChair, .call .leftWineGlass, .call .rightWineGlass,
   .call .leftPlate, .call .rightPlate, .call .leftFork, .call .rightFork]

/-- C1: for every scale vector, rotation triple (degrees) and position
vector, `SetTransformations` pushes as the `"model"` uniform exactly the
product `Translate(position) * RotateZ(rotZ) * RotateY(rotY) * RotateX(rotX)
* Scale(scale)`, each rotation angle converted from degrees to radians
before use. -/
theorem setTransformations_model_product (scaleXYZ : Vec3)
    (rotX rotY rotZ : ℝ) (positionXYZ : Vec3) :
    setTransformations true scaleXYZ rotX rotY rotZ positionXYZ =
      [UPush.mat4V "model"
        (glmTranslate positionXYZ *
          glmRotateZ (glmRadians rotZ) *
          glmRotateY (glmRadians rotY) *
          glmRotateX (glmRadians rotX) *
          glmScale scaleXYZ)] := rfl

/-- C4: an image that decodes with a channel count other than 3 or 4 makes
`CreateGLTexture` return `false` and leaves the texture registry (entries
and loaded-texture count) unchanged. -/
theorem createGLTexture_bad_channels (st : SMState) (img : ImageData)
    (tag : String) (newID : Int)
    (h3 : img.colorChannels ≠ 3) (h4 : img.colorChannels ≠ 4) :
    createGLTexture st (some img) tag newID = some (false, st) := by
  simp [createGLTexture, h3, h4]

/-- Witness for C4 at a concrete 5-channel image. -/
theorem createGLTexture_bad_channels_witness :
    ((5 : Int) ≠ 3) ∧ ((5 : Int) ≠ 4) ∧
      createGLTexture initialState (some ⟨10, 10, 5⟩) "oops" 7 =
        some (false, initialState) :=
  ⟨by decide, by decide,
    createGLTexture_bad_channels initialState ⟨10, 10, 5⟩ "oops" 7
      (by decide) (by decide)⟩

/-- C9: the registry has 16 slots and `CreateGLTexture` performs no bounds
check: with 16 textures already registered, a load that decodes with 3 or 4
channels reaches the store `m_textureIDs[m_loadedTextures]` outside the
16-entry array — undefined behaviour (`none`) instead of an explicit
bounds-checked failure. -/
theorem createGLTexture_full_registry_ub (st : SMState) (img : ImageData)
    (tag : String) (newID : Int)
    (hfull : st.textureIDs.length = 16)
    (hch : img.colorChannels = 3 ∨ img.colorChannels = 4) :
    createGLTexture st (some img) tag newID = none := by
  simp [createGLTexture, hch, hfull]

/-- Witness for C9 at a concrete full registry and a 3-channel image. -/
theorem createGLTexture_full_registry_ub_witness :
    (SMState.mk (List.replicate 16 ⟨"t", 0⟩) []).textureIDs.length = 16 ∧
      ((3 : Int) = 3 ∨ (3 : Int) = 4) ∧
      createGLTexture ⟨List.replicate 16 ⟨"t", 0⟩, []⟩ (some ⟨8, 8, 3⟩)
        "full" 9 = none :=
  ⟨by decide, by decide,
    createGLTexture_full_registry_ub ⟨List.replicate 16 ⟨"t", 0⟩, []⟩
      ⟨8, 8, 3⟩ "full" 9 (by decide) (by decide)⟩

/-- C5: the flicker multiplier computed in `RenderScene` equals
`0.9 + 0.1 * sin(15 * t)`, always lies in `[0.8, 1.0]`, and is applied to
the spotlight diffuse and ambient colors pushed at the start of every
frame. -/
theorem renderScene_flicker_spec (t : ℝ) :
    flicker t = 0.9 + 0.1 * Real.sin (15 * t) ∧
    0.8 ≤ flicker t ∧ flicker t ≤ 1.0 ∧
    (renderScene t).take 2 =
      [REvent.push (.vec3V "spotLight.diffuse"
          (Vec3.smulR ⟨0.9, 0.55, 0.2⟩ (flicker t))),
       REvent.push (.vec3V "spotLight.ambient"
          (Vec3.smulR ⟨0.08, 0.05, 0.02⟩ (flicker t)))] := by
  have h1 := Real.neg_one_le_sin (t * 15.0)
  have h2 := Real.sin_le_one (t * 15.0)
  refine ⟨by rw [flicker, mul_comm t]; norm_num, ?_, ?_, rfl⟩
  · rw [flicker]; nlinarith
  · rw [flicker]; nlinarith

/-- C8: every invocation of `RenderScene` first pushes the two spotlight
flicker uniforms and then invokes the fifteen per-object render routines in
one fixed order, with no routine skipped and no branching. -/
theorem renderScene_fixed_order (t : ℝ) :
    renderScene t =
      REvent.push (.vec3V "spotLight.diffuse"
          (Vec3.smulR ⟨0.9, 0.55, 0.2⟩ (flicker t))) ::
      REvent.push (.vec3V "spotLight.ambient"
          (Vec3.smulR ⟨0.08, 0.05, 0.02⟩ (flicker t))) ::
      List.map REvent.call
        [Routine.floor, .backWall, .rightWall, .table, .clock,
         .wineBottle, .candle, .leftChair, .rightChair, .leftWineGlass,
         .rightWineGlass, .leftPlate, .rightPlate, .leftFork,
         .rightFork] := rfl

/-- The `FindTextureID` loop yields the initial `-1` when no entry's tag
matches. -/
theorem findIDGo_eq_neg_one (tag : String) :
    ∀ l : List TEXTURE_INFO, (∀ e ∈ l, e.tag ≠ tag) → findIDGo tag l = -1
  | [], _ => rfl
  | e :: rest, h => by
      have he : e.tag ≠ tag := h e (List.mem_cons_self _ _)
      simp [findIDGo, he,
        findIDGo_eq_neg_one tag rest (fun x hx => h x (List.mem_cons_of_mem _ hx))]

/-- The `FindTextureSlot` loop yields the initial `-1` when no entry's tag
matches, whatever the running index is. -/
theorem findSlotGo_eq_neg_one (tag : String) :
    ∀ (l : List TEXTURE_INFO) (i : Nat),
      (∀ e ∈ l, e.tag ≠ tag) → findSlotGo tag l i = -1
  | [], _, _ => rfl
  | e :: rest, i, h => by
      have he : e.tag ≠ tag := h e (List.mem_cons_self _ _)
      simp [findSlotGo, he,
        findSlotGo_eq_neg_one tag rest (i + 1)
          (fun x hx => h x (List.mem_cons_of_mem _ hx))]

/-- The `FindMaterial` scan finds nothing when no entry's tag matches. -/
theorem findMaterialScan_eq_none (tag : String) :
    ∀ l : List OBJECT_MATERIAL,
      (∀ m ∈ l, m.tag ≠ tag) → findMaterialScan tag l = none
  | [], _ => rfl
  | m :: rest, h => by
      have hm : m.tag ≠ tag := h m (List.mem_cons_self _ _)
      simp [findMaterialScan, hm,
        findMaterialScan_eq_none tag rest
          (fun x hx => h x (List.mem_cons_of_mem _ hx))]

/-- C3 (amended): for a tag matching no registered entry, `FindTextureID`
and `FindTextureSlot` return the sentinel `-1` and `FindMaterial` leaves
its output parameter unmodified; but `FindMaterial` returns `false` only
when the material list is empty — with a non-empty list it returns `true`
even though nothing matched.  No lookup can fail otherwise: all three are
total functions. -/
theorem lookups_not_found (st : SMState) (tag : String)
    (material : OBJECT_MATERIAL)
    (ht : ∀ e ∈ st.textureIDs, e.tag ≠ tag)
    (hm : ∀ m ∈ st.objectMaterials, m.tag ≠ tag) :
    findTextureID st tag = -1 ∧ findTextureSlot st tag = -1 ∧
    (findMaterial st tag material).2 = material ∧
    (findMaterial st tag material).1 = !st.objectMaterials.isEmpty := by
  refine ⟨findIDGo_eq_neg_one tag st.textureIDs ht,
    findSlotGo_eq_neg_one tag st.textureIDs 0 ht, ?_, ?_⟩ <;>
  · cases hmat : st.objectMaterials with
    | nil => simp [findMaterial, hmat]
    | cons a rest =>
        have hscan : findMaterialScan tag st.objectMaterials = none :=
          findMaterialScan_eq_none tag st.objectMaterials hm
        rw [hmat] at hscan
        simp [findMaterial, hmat, hscan]

/-- Witness for the amended C3: a registry with one texture and one
material, queried with a tag registered nowhere. -/
theorem lookups_not_found_witness :
    (∀ e ∈ (SMState.mk [⟨"a", 1⟩]
        [⟨⟨0.7, 0.7, 0.7⟩, ⟨0.4, 0.4, 0.4⟩, 20, "tile"⟩]).textureIDs,
      e.tag ≠ "zzz") ∧
    (∀ m ∈ (SMState.mk [⟨"a", 1⟩]
        [⟨⟨0.7, 0.7, 0.7⟩, ⟨0.4, 0.4, 0.4⟩, 20, "tile"⟩]).objectMaterials,
      m.tag ≠ "zzz") ∧
    (findTextureID ⟨[⟨"a", 1⟩],
        [⟨⟨0.7, 0.7, 0.7⟩, ⟨0.4, 0.4, 0.4⟩, 20, "tile"⟩]⟩ "zzz" = -1 ∧
     findTextureSlot ⟨[⟨"a", 1⟩],
        [⟨⟨0.7, 0.7, 0.7⟩, ⟨0.4, 0.4, 0.4⟩, 20, "tile"⟩]⟩ "zzz" = -1 ∧
     (findMaterial ⟨[⟨"a", 1⟩],
        [⟨⟨0.7, 0.7, 0.7⟩, ⟨0.4, 0.4, 0.4⟩, 20, "tile"⟩]⟩ "zzz"
        ⟨⟨0, 0, 0⟩, ⟨0, 0, 0⟩, 0, "junk"⟩).2 =
          ⟨⟨0, 0, 0⟩, ⟨0, 0, 0⟩, 0, "junk"⟩ ∧
     (findMaterial ⟨[⟨"a", 1⟩],
        [⟨⟨0.7, 0.7, 0.7⟩, ⟨0.4, 0.4, 0.4⟩, 20, "tile"⟩]⟩ "zzz"
        ⟨⟨0, 0, 0⟩, ⟨0, 0, 0⟩, 0, "junk"⟩).1 =
          !(SMState.mk [⟨"a", 1⟩]
            [⟨⟨0.7, 0.7, 0.7⟩, ⟨0.4, 0.4, 0.4⟩, 20, "tile"⟩]).objectMaterials.isEmpty) := by
  refine ⟨?_, ?_, ?_⟩
  · intro e he
    rw [List.mem_singleton] at he
    subst he
    decide
  · intro m hm
    rw [List.mem_singleton] at hm
    subst hm
    decide
  · exact lookups_not_found _ "zzz" _
      (by intro e he; rw [List.mem_singleton] at he; subst he; decide)
      (by intro m hm; rw [List.mem_singleton] at hm; subst hm; decide)

/-- C3 counterexample: with a non-empty material list and a tag matching no
entry, `FindMaterial` returns `true`, not the claimed not-found `false`. -/
theorem findMaterial_unmatched_returns_true :
    (∀ m ∈ (SMState.mk []
        [⟨⟨0.7, 0.7, 0.7⟩, ⟨0.4, 0.4, 0.4⟩, 20, "tile"⟩]).objectMaterials,
      m.tag ≠ "nope") ∧
    (findMaterial ⟨[], [⟨⟨0.7, 0.7, 0.7⟩, ⟨0.4, 0.4, 0.4⟩, 20, "tile"⟩]⟩
        "nope" ⟨⟨0, 0, 0⟩, ⟨0, 0, 0⟩, 0, "junk"⟩).1 = true := by
  constructor
  · intro m hm
    rw [List.mem_singleton] at hm
    subst hm
    decide
  · rfl

/-- No iteration of the `DestroyGLTextures` loop issues a
`glDeleteTextures` call. -/
theorem destroyGo_no_delete (fresh : Nat → Int) :
    ∀ (l : List TEXTURE_INFO) (i : Nat) (c : GLCall),
      c ∈ (destroyGo fresh l i).2 → c.isDelete = false
  | [], _, c, h => by simp [destroyGo] at h
  | e :: rest, i, c, h => by
      rw [destroyGo, List.mem_cons] at h
      rcases h with h | h
      · subst h; rfl
      · exact destroyGo_no_delete fresh rest (i + 1) c h

/-- Entry `k` of the registry after the `DestroyGLTextures` loop keeps its
tag and holds the name generated at iteration `i + k`. -/
theorem destroyGo_fst_get? (fresh : Nat → Int) :
    ∀ (l : List TEXTURE_INFO) (i k : Nat),
      (destroyGo fresh l i).1.get? k =
        (l.get? k).map (fun e => ⟨e.tag, fresh (i + k)⟩)
  | [], i, k => by simp [destroyGo]
  | e :: rest, i, 0 => by simp [destroyGo]
  | e :: rest, i, k + 1 => by
      rw [destroyGo]
      show (destroyGo fresh rest (i + 1)).1.get? k = _
      rw [destroyGo_fst_get? fresh rest (i + 1) k]
      have hik : i + 1 + k = i + (k + 1) := by omega
      rw [List.get?_cons_succ, hik]

/-- C7: `DestroyGLTextures` issues no `glDeleteTextures` call; instead it
generates a fresh texture name at each loop iteration and overwrites the
stored handle of every loaded entry with it, leaving the tags in place. -/
theorem destroyGLTextures_regenerates (st : SMState) (fresh : Nat → Int)
    (k : Nat) (hk : k < st.textureIDs.length) :
    (∀ c ∈ (destroyGLTextures st fresh).2, c.isDelete = false) ∧
    (destroyGLTextures st fresh).1.textureIDs.get? k =
      some ⟨(st.textureIDs.get ⟨k, hk⟩).tag, fresh k⟩ := by
  constructor
  · intro c hc
    exact destroyGo_no_delete fresh st.textureIDs 0 c hc
  · show (destroyGo fresh st.textureIDs 0).1.get? k = _
    rw [destroyGo_fst_get? fresh st.textureIDs 0 k, List.get?_eq_get hk]
    simp

/-- Witness for C7 at a one-entry registry whose generated name is 9. -/
theorem destroyGLTextures_regenerates_witness :
    0 < ([(⟨"a", 3⟩ : TEXTURE_INFO)]).length ∧
    ((∀ c ∈ (destroyGLTextures ⟨[⟨"a", 3⟩], []⟩ (fun _ => 9)).2,
        c.isDelete = false) ∧
      (destroyGLTextures ⟨[⟨"a", 3⟩], []⟩
          (fun _ => 9)).1.textureIDs.get? 0 = some ⟨"a", 9⟩) :=
  ⟨by decide,
    destroyGLTextures_regenerates ⟨[⟨"a", 3⟩], []⟩ (fun _ => 9) 0 (by decide)⟩

/-- C10: with a null shader-manager pointer, `SetTransformations`,
`SetShaderColor`, `SetShaderTexture` and `SetTextureUVScale` push nothing
and return normally, because each tests the pointer before pushing;
`SetShaderMaterial` has no such test, so whenever its pushes are reached
(any non-empty material list) the calls go through the null pointer —
undefined behaviour (`none`). -/
theorem nullShader_guard_contract (st : SMState) (scaleXYZ : Vec3)
    (rx ry rz : ℝ) (pos : Vec3) (red green blue alpha : ℝ)
    (textureTag materialTag : String) (u v : ℝ)
    (junk : OBJECT_MATERIAL) :
    setTransformations false scaleXYZ rx ry rz pos = [] ∧
    setShaderColor false red green blue alpha = [] ∧
    setShaderTexture st false textureTag = [] ∧
    setTextureUVScale false u v = [] ∧
    (0 < st.objectMaterials.length →
      setShaderMaterial st false junk materialTag = none) := by
  refine ⟨rfl, rfl, rfl, rfl, fun h => ?_⟩
  have hne : st.objectMaterials.length ≠ 0 := Nat.pos_iff_ne_zero.mp h
  cases hscan : findMaterialScan materialTag st.objectMaterials <;>
    simp [setShaderMaterial, findMaterial, h, hne, hscan]

/-- Witness for C10: concrete inputs with a null shader pointer and a
one-material registry. -/
theorem nullShader_guard_contract_witness :
    setTransformations false ⟨1, 1, 1⟩ 0 0 0 ⟨0, 0, 0⟩ = [] ∧
    setShaderColor false 1 1 1 1 = [] ∧
    setShaderTexture ⟨[], [⟨⟨0.7, 0.7, 0.7⟩, ⟨0.8, 0.8, 0.8⟩, 60, "wood"⟩]⟩
      false "floor_tile" = [] ∧
    setTextureUVScale false 1 1 = [] ∧
    setShaderMaterial ⟨[], [⟨⟨0.7, 0.7, 0.7⟩, ⟨0.8, 0.8, 0.8⟩, 60, "wood"⟩]⟩
      false ⟨⟨0, 0, 0⟩, ⟨0, 0, 0⟩, 0, "junk"⟩ "wood" = none := by
  have h := nullShader_guard_contract
    ⟨[], [⟨⟨0.7, 0.7, 0.7⟩, ⟨0.8, 0.8, 0.8⟩, 60, "wood"⟩]⟩
    ⟨1, 1, 1⟩ 0 0 0 ⟨0, 0, 0⟩ 1 1 1 1 "floor_tile" "wood" 1 1
    ⟨⟨0, 0, 0⟩, ⟨0, 0, 0⟩, 0, "junk"⟩
  exact ⟨h.1, h.2.1, h.2.2.1, h.2.2.2.1, h.2.2.2.2 (by simp)⟩

/-- The `FindTextureID` loop returns the ID of the first entry whose tag
matches. -/
theorem findIDGo_of_find? (tag : String) :
    ∀ (l : List TEXTURE_INFO) (e : TEXTURE_INFO),
      l.find? (fun x => x.tag == tag) = some e → findIDGo tag l = e.ID
  | [], e, h => by simp at h
  | a :: rest, e, h => by
      by_cases ha : a.tag = tag
      · have hb : (a.tag == tag) = true := by simp [ha]
        simp only [List.find?, hb] at h
        injection h with h
        subst h
        simp [findIDGo, ha]
      · have hb : (a.tag == tag) = false := by simp [ha]
        simp only [List.find?, hb] at h
        simp [findIDGo, ha, findIDGo_of_find? tag rest e h]

/-- The `FindTextureSlot` loop returns the position (offset by the running
index) of the first entry whose tag matches. -/
theorem findSlotGo_of_find? (tag : String) :
    ∀ (l : List TEXTURE_INFO) (e : TEXTURE_INFO) (i : Nat),
      l.find? (fun x => x.tag == tag) = some e →
      findSlotGo tag l i =
        ((i + l.findIdx (fun x => x.tag == tag) : Nat) : Int)
  | [], e, i, h => by simp at h
  | a :: rest, e, i, h => by
      by_cases ha : a.tag = tag
      · have hb : (a.tag == tag) = true := by simp [ha]
        simp [findSlotGo, ha, List.findIdx_cons, hb]
      · have hb : (a.tag == tag) = false := by simp [ha]
        simp only [List.find?, hb] at h
        have hrec := findSlotGo_of_find? tag rest e (i + 1) h
        rw [findSlotGo, if_neg ha, hrec, List.findIdx_cons, hb]
        simp only [Bool.cond_eq_ite, if_neg Bool.false_ne_true]
        congr 1
        omega

/-- The `FindMaterial` scan returns the first entry whose tag matches. -/
theorem findMaterialScan_of_find? (tag : String) :
    ∀ (l : List OBJECT_MATERIAL) (m : OBJECT_MATERIAL),
      l.find? (fun x => x.tag == tag) = some m →
      findMaterialScan tag l = some m
  | [], m, h => by simp at h
  | a :: rest, m, h => by
      by_cases ha : a.tag = tag
      · have hb : (a.tag == tag) = true := by simp [ha]
        simp only [List.find?, hb] at h
        injection h with h
        subst h
        simp [findMaterialScan, ha]
      · have hb : (a.tag == tag) = false := by simp [ha]
        simp only [List.find?, hb] at h
        simp [findMaterialScan, ha, findMaterialScan_of_find? tag rest m h]

/-- C6: when some entry matches the queried tag, `FindTextureID` returns
the ID of the first matching texture entry, `FindTextureSlot` returns the
index of that first match, and `FindMaterial` returns `true` after copying
the first matching material's diffuse color, specular color and shininess
into its output parameter. -/
theorem lookups_first_match (st : SMState) (tag : String)
    (material : OBJECT_MATERIAL) (e : TEXTURE_INFO) (m : OBJECT_MATERIAL) :
    (st.textureIDs.find? (fun x => x.tag == tag) = some e →
      findTextureID st tag = e.ID ∧
      findTextureSlot st tag =
        ((st.textureIDs.findIdx (fun x => x.tag == tag) : Nat) : Int)) ∧
    (st.objectMaterials.find? (fun x => x.tag == tag) = some m →
      findMaterial st tag material =
        (true, { material with
                   diffuseColor := m.diffuseColor
                   specularColor := m.specularColor
                   shininess := m.shininess })) := by
  constructor
  · intro h
    refine ⟨findIDGo_of_find? tag st.textureIDs e h, ?_⟩
    rw [findTextureSlot, findSlotGo_of_find? tag st.textureIDs e 0 h]
    simp
  · intro h
    have hscan := findMaterialScan_of_find? tag st.objectMaterials m h
    have hne : st.objectMaterials.length ≠ 0 := by
      cases hl : st.objectMaterials
      · rw [hl] at h; simp at h
      · simp [hl]
    simp [findMaterial, hne, hscan]

/-- Witness for C6: two texture entries tagged `"a"` and two materials
tagged `"a"`; each lookup returns the first match (and `FindMaterial`
leaves the output's tag field alone). -/
theorem lookups_first_match_witness :
    ([⟨"a", 5⟩, ⟨"b", 7⟩, ⟨"a", 9⟩] : List TEXTURE_INFO).find?
        (fun x => x.tag == "a") = some ⟨"a", 5⟩ ∧
    ([⟨⟨1, 2, 3⟩, ⟨4, 5, 6⟩, 7, "a"⟩, ⟨⟨9, 9, 9⟩, ⟨8, 8, 8⟩, 1, "a"⟩] :
        List OBJECT_MATERIAL).find? (fun x => x.tag == "a") =
          some ⟨⟨1, 2, 3⟩, ⟨4, 5, 6⟩, 7, "a"⟩ ∧
    findTextureID ⟨[⟨"a", 5⟩, ⟨"b", 7⟩, ⟨"a", 9⟩],
      [⟨⟨1, 2, 3⟩, ⟨4, 5, 6⟩, 7, "a"⟩, ⟨⟨9, 9, 9⟩, ⟨8, 8, 8⟩, 1, "a"⟩]⟩
      "a" = 5 ∧
    findTextureSlot ⟨[⟨"a", 5⟩, ⟨"b", 7⟩, ⟨"a", 9⟩],
      [⟨⟨1, 2, 3⟩, ⟨4, 5, 6⟩, 7, "a"⟩, ⟨⟨9, 9, 9⟩, ⟨8, 8, 8⟩, 1, "a"⟩]⟩
      "a" = 0 ∧
    findMaterial ⟨[⟨"a", 5⟩, ⟨"b", 7⟩, ⟨"a", 9⟩],
      [⟨⟨1, 2, 3⟩, ⟨4, 5, 6⟩, 7, "a"⟩, ⟨⟨9, 9, 9⟩, ⟨8, 8, 8⟩, 1, "a"⟩]⟩
      "a" ⟨⟨0, 0, 0⟩, ⟨0, 0, 0⟩, 0, "junk"⟩ =
      (true, ⟨⟨1, 2, 3⟩, ⟨4, 5, 6⟩, 7, "junk"⟩) := by
  have h := lookups_first_match
    ⟨[⟨"a", 5⟩, ⟨"b", 7⟩, ⟨"a", 9⟩],
      [⟨⟨1, 2, 3⟩, ⟨4, 5, 6⟩, 7, "a"⟩, ⟨⟨9, 9, 9⟩, ⟨8, 8, 8⟩, 1, "a"⟩]⟩
    "a" ⟨⟨0, 0, 0⟩, ⟨0, 0, 0⟩, 0, "junk"⟩ ⟨"a", 5⟩
    ⟨⟨1, 2, 3⟩, ⟨4, 5, 6⟩, 7, "a"⟩
  exact ⟨rfl, rfl, (h.1 rfl).1, (h.1 rfl).2, h.2 rfl⟩

/-- A run of `CreateGLTexture` calls whose images all decode with 3 or 4
channels and which fit in the 16-slot array appends one registry entry
(tag, generated name) per call, in call order. -/
theorem registerSeq_append (inputs : List RegInput) :
    ∀ st0 : SMState,
      (∀ x ∈ inputs, x.img.colorChannels = 3 ∨ x.img.colorChannels = 4) →
      st0.textureIDs.length + inputs.length ≤ 16 →
      registerSeq inputs st0 =
        some { st0 with textureIDs :=
          st0.textureIDs ++ inputs.map (fun x => ⟨x.tag, x.newID⟩) } := by
  induction inputs with
  | nil => intro st0 _ _; simp [registerSeq]
  | cons r rest ih =>
      intro st0 hch hlen
      have hr : r.img.colorChannels = 3 ∨ r.img.colorChannels = 4 :=
        hch r (List.mem_cons_self _ _)
      have hlt : st0.textureIDs.length < 16 := by
        simp [List.length_cons] at hlen; omega
      have hc : createGLTexture st0 (some r.img) r.tag r.newID =
          some (true, { st0 with
            textureIDs := st0.textureIDs ++ [⟨r.tag, r.newID⟩] }) := by
        simp [createGLTexture, hr, hlt]
      have hlen2 : ({ st0 with
          textureIDs := st0.textureIDs ++ [(⟨r.tag, r.newID⟩ : TEXTURE_INFO)]
          } : SMState).textureIDs.length + rest.length ≤ 16 := by
        simp [List.length_append]
        simp [List.length_cons] at hlen
        omega
      simp only [registerSeq, hc]
      rw [ih _ (fun x hx => hch x (List.mem_cons_of_mem _ hx)) hlen2]
      simp [List.append_assoc]

/-- Entry `k` of the bindings issued by the `BindGLTextures` loop started
at unit `i` pairs unit `i + k` with the ID of registry entry `k`. -/
theorem bindGo_get? :
    ∀ (l : List TEXTURE_INFO) (i k : Nat),
      (bindGo l i).get? k = (l.get? k).map (fun e => (i + k, e.ID))
  | [], i, k => by simp [bindGo]
  | a :: rest, i, 0 => by simp [bindGo]
  | a :: rest, i, k + 1 => by
      rw [bindGo, List.get?_cons_succ, List.get?_cons_succ,
        bindGo_get? rest (i + 1) k]
      have h1 : i + 1 + k = i + (k + 1) := by omega
      rw [h1]

/-- On a registry whose tags are pairwise distinct, the `FindTextureSlot`
loop started at index `i` answers `i + k` for the tag of entry `k`. -/
theorem findSlotGo_get? :
    ∀ (l : List TEXTURE_INFO) (k : Nat) (e : TEXTURE_INFO) (i : Nat),
      (l.map TEXTURE_INFO.tag).Nodup → l.get? k = some e →
      findSlotGo e.tag l i = ((i + k : Nat) : Int)
  | [], k, e, i, _, h => by simp at h
  | a :: rest, 0, e, i, _, h => by
      rw [List.get?_cons_zero] at h
      injection h with h
      subst h
      simp [findSlotGo]
  | a :: rest, k + 1, e, i, hnd, h => by
      rw [List.get?_cons_succ] at h
      have hmem : e ∈ rest := List.get?_mem h
      have hnd2 : ((a :: rest).map TEXTURE_INFO.tag).Nodup := hnd
      rw [List.map_cons, List.nodup_cons] at hnd2
      have hne : a.tag ≠ e.tag := by
        intro hEq
        exact hnd2.1 (hEq ▸ List.mem_map_of_mem _ hmem)
      rw [findSlotGo, if_neg hne, findSlotGo_get? rest k e (i + 1) hnd2.2 h]
      congr 1
      omega

/-- C2: running a sequence of successful `CreateGLTexture` registrations
with pairwise-distinct tags from the constructor state, `FindTextureSlot`
queried with the tag of the `k`-th registered texture (0-based) returns
`k`, and iteration `k` of `BindGLTextures` binds the `k`-th generated
texture name to GPU texture unit `k`. -/
theorem registration_slot_bind (inputs : List RegInput) (st : SMState)
    (r : RegInput) (k : Nat)
    (hreg : registerSeq inputs initialState = some st)
    (hch : ∀ x ∈ inputs, x.img.colorChannels = 3 ∨ x.img.colorChannels = 4)
    (hlen : inputs.length ≤ 16)
    (hnodup : (inputs.map RegInput.tag).Nodup)
    (hk : inputs.get? k = some r) :
    findTextureSlot st r.tag = (k : Int) ∧
    (bindGLTextures st).get? k = some (k, r.newID) := by
  have hs := registerSeq_append inputs initialState hch
    (by simpa [initialState] using hlen)
  rw [hreg] at hs
  have hst := Option.some.inj hs
  have hT : st.textureIDs =
      inputs.map (fun x => (⟨x.tag, x.newID⟩ : TEXTURE_INFO)) := by
    rw [hst]
    simp [initialState]
  have hgetL : (inputs.map
      (fun x => (⟨x.tag, x.newID⟩ : TEXTURE_INFO))).get? k =
        some ⟨r.tag, r.newID⟩ := by
    rw [List.get?_map, hk]
    rfl
  have htags : ((inputs.map
      (fun x => (⟨x.tag, x.newID⟩ : TEXTURE_INFO))).map
        TEXTURE_INFO.tag).Nodup := by
    simpa [List.map_map, Function.comp] using hnodup
  constructor
  · rw [findTextureSlot, hT]
    have hslot := findSlotGo_get?
      (inputs.map (fun x => (⟨x.tag, x.newID⟩ : TEXTURE_INFO)))
      k ⟨r.tag, r.newID⟩ 0 htags hgetL
    simpa using hslot
  · rw [bindGLTextures, hT, bindGo_get? _ 0 k, hgetL]
    simp

/-- Witness for C2: two successful registrations (tags `"a"`, `"b"`, names
5 and 7); the second tag resolves to slot 1 and binding pairs unit 1 with
name 7. -/
theorem registration_slot_bind_witness :
    registerSeq [⟨⟨2, 2, 3⟩, "a", 5⟩, ⟨⟨2, 2, 4⟩, "b", 7⟩] initialState =
      some ⟨[⟨"a", 5⟩, ⟨"b", 7⟩], []⟩ ∧
    ([⟨⟨2, 2, 3⟩, "a", 5⟩, ⟨⟨2, 2, 4⟩, "b", 7⟩] : List RegInput).get? 1 =
      some ⟨⟨2, 2, 4⟩, "b", 7⟩ ∧
    (findTextureSlot ⟨[⟨"a", 5⟩, ⟨"b", 7⟩], []⟩ "b" = 1 ∧
      (bindGLTextures ⟨[⟨"a", 5⟩, ⟨"b", 7⟩], []⟩).get? 1 = some (1, 7)) := by
  refine ⟨rfl, rfl, ?_⟩
  exact registration_slot_bind
    [⟨⟨2, 2, 3⟩, "a", 5⟩, ⟨⟨2, 2, 4⟩, "b", 7⟩]
    ⟨[⟨"a", 5⟩, ⟨"b", 7⟩], []⟩ ⟨⟨2, 2, 4⟩, "b", 7⟩ 1 rfl
    (by decide) (by decide) (by decide) rfl
